import Mathlib

/-!
Verification development for the wowmania backend's order/cart/payment
subsystem.  Definitions are shallow embeddings of the TypeScript source:
`src/src/models/Order.ts`, `src/src/models/Cart.ts`,
`src/src/controllers/adminController.ts` and
`src/src/controllers/paymentController.ts`.  Money amounts are rationals,
timestamps are naturals (milliseconds), document fields that the code may
leave `undefined` are `Option`s, and a thrown exception is modelled as
`Except.error` with the document left unchanged.
-/

/-- Money amounts (JS numbers carrying currency values) are modelled as
rationals. -/
abbrev Money := ℚ

/-- JS truthiness of a possibly-undefined string: `undefined` and the empty
string are falsy. -/
def strTruthy : Option String → Bool
  | none => false
  | some s => s ≠ ""

/-- JS truthiness of a possibly-undefined number: `undefined` and `0` are
falsy. -/
def numTruthy : Option Money → Bool
  | none => false
  | some a => a ≠ 0

/-- Raw order-line data as stored on an order document
(`orderItemSchema` in `Order.ts`); `name`, `sku`, `totalPrice` and `image`
are `Option`s because the document can be constructed without them even
though the schema declares them required. -/
structure OrderItemData where
  productId : Nat
  variantId : Option Nat
  name : Option String
  sku : Option String
  quantity : Int
  price : Money
  totalPrice : Option Money
  image : Option String
  deriving Repr, DecidableEq

/-- Required-field and bound checks declared by `orderItemSchema`
(`Order.ts` lines 4-40): `name`, `sku`, `quantity ≥ 1`, `price ≥ 0`,
`totalPrice ≥ 0` are all required. -/
def orderItemSchemaOk (d : OrderItemData) : Bool :=
  d.name.isSome && d.sku.isSome && decide (1 ≤ d.quantity) && decide (0 ≤ d.price) &&
    (match d.totalPrice with
     | some tp => decide (0 ≤ tp)
     | none => false)

/-- Refund record pushed by the payment controller onto `order.refunds`. -/
structure RefundRecord where
  amount : Money
  reason : String
  refundMethod : String
  refundedAt : Nat
  stripeRefundId : Option String
  deriving Repr, DecidableEq

/-- An order document.  Fields up to `refundDate` are declared in
`orderSchema`; the remaining fields (`paymentIntentId`, `transactionId`,
`paidAt`, `paymentFailureReason`, `refunds`, `statusProp`, `cancelledAt`,
`cancellationReason`, `cancelledBy`) are plain JS properties the
controllers assign even though the schema does not declare them
(`statusProp` models the controllers writing `order.status`). -/
structure OrderDoc where
  orderNumber : String
  items : List OrderItemData
  subtotal : Money
  tax : Money
  shipping : Money
  discount : Money
  total : Money
  paymentStatus : String
  orderStatus : String
  shippingMethod : String
  trackingNumber : Option String
  estimatedDelivery : Option Nat
  actualDelivery : Option Nat
  adminNotes : Option String
  refundReason : Option String
  refundAmount : Option Money
  refundDate : Option Nat
  updatedAt : Nat
  paymentIntentId : Option String
  transactionId : Option String
  paidAt : Option Nat
  paymentFailureReason : Option String
  refunds : List RefundRecord
  statusProp : Option String
  cancelledAt : Option Nat
  cancellationReason : Option String
  cancelledBy : Option Nat
  deriving Repr, DecidableEq

/-- The `paymentStatus` enum declared by `orderSchema` (`Order.ts`
lines 102-107). -/
def paymentStatusEnum : List String :=
  ["pending", "processing", "completed", "failed", "refunded"]

/-- Pre-save hook of `orderSchema` that recomputes each line's
`totalPrice` when `price` and `quantity` are truthy (`Order.ts`
lines 235-244). -/
def orderItemRecalc (it : OrderItemData) : OrderItemData :=
  if it.price ≠ 0 ∧ it.quantity ≠ 0 then
    { it with totalPrice := some (it.price * it.quantity) }
  else it

/-- Saving an existing order document: the order-number hook is skipped
(the document is not new), the totals hook is skipped (none of
items/subtotal/tax/shipping/discount were modified by the status, refund
or payment mutators), and the line-total hook runs. -/
def orderSaveExisting (o : OrderDoc) : OrderDoc :=
  { o with items := o.items.map orderItemRecalc }

/-- The `validTransitions` table inside `updateStatus` (`Order.ts`
lines 299-307); a status outside the table gets `[]`. -/
def validTransitions (s : String) : List String :=
  if s = "pending" then ["confirmed", "cancelled"]
  else if s = "confirmed" then ["processing", "cancelled"]
  else if s = "processing" then ["shipped", "cancelled"]
  else if s = "shipped" then ["delivered", "returned"]
  else if s = "delivered" then ["returned"]
  else if s = "cancelled" then []
  else if s = "returned" then []
  else []

/-- The orderStatus transition table as worded in the spec (section 3):
pending → confirmed/cancelled, confirmed → processing/cancelled,
processing → shipped/cancelled, shipped → delivered/returned,
delivered → returned, cancelled and returned terminal, everything else
rejected. -/
def specOrderTransitions (s : String) : List String :=
  if s = "pending" then ["confirmed", "cancelled"]
  else if s = "confirmed" then ["processing", "cancelled"]
  else if s = "processing" then ["shipped", "cancelled"]
  else if s = "shipped" then ["delivered", "returned"]
  else if s = "delivered" then ["returned"]
  else []

/-- `orderSchema.methods.updateStatus` (`Order.ts` lines 298-337): reject
if the target is not in the allowed set, otherwise set the status, copy
truthy notes to `adminNotes`, stamp `estimatedDelivery` on entering
`processing` (days depending on the shipping method) and `actualDelivery`
on entering `delivered`, then save. -/
def OrderDoc.updateStatus (o : OrderDoc) (newStatus : String)
    (notes : Option String) (now : Nat) : Except String OrderDoc :=
  let allowed := validTransitions o.orderStatus
  if newStatus ∈ allowed then
    let o1 := { o with orderStatus := newStatus }
    let o2 := if strTruthy notes then { o1 with adminNotes := notes } else o1
    let o3 :=
      if newStatus = "processing" then
        let deliveryDays : Nat :=
          if o2.shippingMethod = "express" then 2
          else if o2.shippingMethod = "overnight" then 1
          else if o2.shippingMethod = "same_day" then 0
          else 5
        { o2 with estimatedDelivery := some (now + deliveryDays * 24 * 60 * 60 * 1000) }
      else o2
    let o4 := if newStatus = "delivered" then { o3 with actualDelivery := some now } else o3
    .ok (orderSaveExisting o4)
  else
    .error ("Invalid status transition from " ++ o.orderStatus ++ " to " ++ newStatus)

/-- Document state after a call to `updateStatus`: the thrown exception
leaves the document untouched. -/
def applyUpdateStatus (o : OrderDoc) (newStatus : String)
    (notes : Option String) (now : Nat) : OrderDoc :=
  match o.updateStatus newStatus notes now with
  | .ok o1 => o1
  | .error _ => o

/-- Whether an `Except` result is a success. -/
def exceptOk {ε α : Type} : Except ε α → Bool
  | .ok _ => true
  | .error _ => false

/-- The `validPaymentTransitions` table inside `updatePaymentStatus`
(`Order.ts` lines 341-347). -/
def validPaymentTransitions (s : String) : List String :=
  if s = "pending" then ["processing", "completed", "failed"]
  else if s = "processing" then ["completed", "failed"]
  else if s = "completed" then ["refunded"]
  else if s = "failed" then ["pending"]
  else if s = "refunded" then []
  else []

/-- `orderSchema.methods.updatePaymentStatus` (`Order.ts` lines 340-358). -/
def OrderDoc.updatePaymentStatus (o : OrderDoc) (newStatus : String) :
    Except String OrderDoc :=
  let allowed := validPaymentTransitions o.paymentStatus
  if newStatus ∈ allowed then
    .ok (orderSaveExisting { o with paymentStatus := newStatus })
  else
    .error ("Invalid payment status transition from " ++ o.paymentStatus ++ " to " ++ newStatus)

/-- `orderSchema.methods.processRefund` (`Order.ts` lines 370-385): fail
if the amount exceeds the total, fail if `refundAmount` is already truthy,
otherwise record the refund fields, set `orderStatus` to `returned` and
save. -/
def OrderDoc.processRefund (o : OrderDoc) (amount : Money) (reason : String)
    (now : Nat) : Except String OrderDoc :=
  if amount > o.total then
    .error "Refund amount cannot exceed order total"
  else if numTruthy o.refundAmount then
    .error "Refund already processed for this order"
  else
    .ok (orderSaveExisting
      { o with
        refundAmount := some amount
        refundReason := some reason
        refundDate := some now
        orderStatus := "returned" })

/-- Document state after a call to `processRefund`: the thrown exception
leaves the document untouched. -/
def applyProcessRefund (o : OrderDoc) (amount : Money) (reason : String)
    (now : Nat) : OrderDoc :=
  match o.processRefund amount reason now with
  | .ok o1 => o1
  | .error _ => o

/-- `handlePaymentSucceeded` in `paymentController.ts` (lines 158-174): on
the order found by `paymentIntentId`, assign `paymentStatus = 'paid'`
directly, stamp `paidAt` with the current time, record the charge id, and
save. -/
def handlePaymentSucceeded (o : OrderDoc) (latestCharge : String) (now : Nat) :
    OrderDoc :=
  orderSaveExisting
    { o with
      paymentStatus := "paid"
      paidAt := some now
      transactionId := some latestCharge }

/-- The success branch of `confirmPayment` in `paymentController.ts`
(lines 78-93): assign `paymentStatus = 'paid'` directly, stamp `paidAt`,
record the charge id, save. -/
def confirmPaymentSuccess (o : OrderDoc) (latestCharge : String) (now : Nat) :
    OrderDoc :=
  orderSaveExisting
    { o with
      paymentStatus := "paid"
      paidAt := some now
      transactionId := some latestCharge }

/-- `handlePaymentFailed` in `paymentController.ts` (lines 176-192):
assign `paymentStatus = 'failed'` directly and record the failure
reason. -/
def handlePaymentFailed (o : OrderDoc) (reason : Option String) : OrderDoc :=
  orderSaveExisting
    { o with
      paymentStatus := "failed"
      paymentFailureReason := reason }

/-- `handleChargeRefunded` in `paymentController.ts` (lines 194-219): push
a refund record derived from the charge and assign
`paymentStatus = 'refunded'` directly. -/
def handleChargeRefunded (o : OrderDoc) (amountRefunded : Money)
    (stripeRefundId : Option String) (now : Nat) : OrderDoc :=
  let record : RefundRecord :=
    { amount := amountRefunded / 100
      reason := "Customer request"
      refundMethod := "stripe"
      refundedAt := now
      stripeRefundId := stripeRefundId }
  orderSaveExisting
    { o with
      refunds := o.refunds ++ [record]
      paymentStatus := "refunded" }

/-- The `isRefundable` virtual (`Order.ts` lines 186-194): delivered, no
truthy `refundAmount`, and at most 30 days since the delivery date
(`actualDelivery`, falling back to `updatedAt`). -/
def OrderDoc.isRefundable (o : OrderDoc) (now : Nat) : Bool :=
  if o.orderStatus ≠ "delivered" then false
  else if numTruthy o.refundAmount then false
  else
    let deliveryDate := o.actualDelivery.getD o.updatedAt
    decide ((now : Int) - (deliveryDate : Int) ≤ 30 * 24 * 60 * 60 * 1000)

/-- `cancelOrder` in `adminController.ts` (lines 821-869): reject when
`isRefundable` is false; otherwise assign the (undeclared) `status`
property to `cancelled`, stamp cancellation metadata, and save.
`orderStatus` itself is never assigned.  The thrown exception leaves the
document untouched. -/
def applyCancelOrder (o : OrderDoc) (userId : Nat) (reason : Option String)
    (now : Nat) : OrderDoc :=
  if o.isRefundable now then
    orderSaveExisting
      { o with
        statusProp := some "cancelled"
        cancelledAt := some now
        cancellationReason := reason
        cancelledBy := some userId }
  else o

/-- A cart line (`cartItemSchema` in `Cart.ts`); `id` models the subdocument
`_id`. -/
structure CartItem where
  id : Nat
  productId : Nat
  variantId : Option Nat
  quantity : Int
  price : Money
  totalPrice : Money
  addedAt : Nat
  deriving Repr, DecidableEq

/-- A cart document (`cartSchema` in `Cart.ts`). -/
structure Cart where
  items : List CartItem
  subtotal : Money
  tax : Money
  shipping : Money
  discount : Money
  total : Money
  couponCode : Option String
  couponDiscount : Money
  deriving Repr, DecidableEq

/-- A cart created with the schema defaults (`Cart.ts` lines 36-99): no
items, all money fields zero. -/
def newCart : Cart :=
  { items := []
    subtotal := 0
    tax := 0
    shipping := 0
    discount := 0
    total := 0
    couponCode := none
    couponDiscount := 0 }

/-- Sum of the line totals of a list of cart items. -/
def cartItemsSubtotal (items : List CartItem) : Money :=
  (items.map (·.totalPrice)).sum

/-- First pre-save hook of `cartSchema` (`Cart.ts` lines 131-145):
recompute `subtotal` from the items, then `total`, flooring at zero. -/
def cartRecalcTotals (c : Cart) : Cart :=
  let subtotal := cartItemsSubtotal c.items
  let rawTotal := subtotal + c.tax + c.shipping - c.discount - c.couponDiscount
  { c with subtotal := subtotal, total := if rawTotal < 0 then 0 else rawTotal }

/-- Second pre-save hook of `cartSchema` (`Cart.ts` lines 148-157):
recompute a line's `totalPrice` when `price` and `quantity` are truthy. -/
def cartItemRecalc (it : CartItem) : CartItem :=
  if it.price ≠ 0 ∧ it.quantity ≠ 0 then
    { it with totalPrice := it.price * it.quantity }
  else it

/-- Saving a cart after a mutation that touched one of the trigger fields:
the totals hook runs first, then the per-line recompute hook. -/
def cartSave (c : Cart) : Cart :=
  let c1 := cartRecalcTotals c
  { c1 with items := c1.items.map cartItemRecalc }

/-- Update the first element satisfying the predicate, as JS `find` plus
in-place mutation of the found subdocument does. -/
def updateFirst {α : Type} (p : α → Bool) (f : α → α) : List α → List α
  | [] => []
  | x :: xs => if p x then f x :: xs else x :: updateFirst p f xs

/-- `cartSchema.methods.addItem` (`Cart.ts` lines 181-206): merge into the
first line with the same `(productId, variantId)` pair, otherwise append a
new line; then save.  `freshId` models the `_id` assigned to a new
subdocument. -/
def Cart.addItem (c : Cart) (freshId productId : Nat) (variantId : Option Nat)
    (quantity : Int) (price : Money) (now : Nat) : Cart :=
  let sameLine := fun (it : CartItem) =>
    it.productId = productId && it.variantId = variantId
  if (c.items.find? sameLine).isSome then
    cartSave
      { c with
        items := updateFirst sameLine
          (fun it =>
            { it with
              quantity := it.quantity + quantity
              totalPrice := it.price * (((it.quantity + quantity) : Int) : Money)
              addedAt := now })
          c.items }
  else
    cartSave
      { c with
        items := c.items ++
          [{ id := freshId
             productId := productId
             variantId := variantId
             quantity := quantity
             price := price
             totalPrice := price * quantity
             addedAt := now }] }

/-- `cartSchema.methods.updateItemQuantity` (`Cart.ts` lines 209-228):
reject quantities outside [1, 99] and unknown item ids (leaving the cart
unchanged); otherwise set the quantity, recompute the line total, and
save. -/
def Cart.updateItemQuantity (c : Cart) (itemId : Nat) (quantity : Int)
    (now : Nat) : Cart :=
  if quantity ≤ 0 then c
  else if quantity > 99 then c
  else if (c.items.find? (fun it => it.id = itemId)).isSome then
    cartSave
      { c with
        items := updateFirst (fun it => it.id = itemId)
          (fun it =>
            { it with
              quantity := quantity
              totalPrice := it.price * quantity
              addedAt := now })
          c.items }
  else c

/-- `cartSchema.methods.removeItem` (`Cart.ts` lines 231-234): filter the
line out and save. -/
def Cart.removeItem (c : Cart) (itemId : Nat) : Cart :=
  cartSave { c with items := c.items.filter (fun it => it.id ≠ itemId) }

/-- `cartSchema.methods.clearCart` (`Cart.ts` lines 237-248): empty the
items, zero every money field, drop the coupon, save. -/
def Cart.clearCart (c : Cart) : Cart :=
  cartSave
    { c with
      items := []
      subtotal := 0
      tax := 0
      shipping := 0
      discount := 0
      couponDiscount := 0
      total := 0
      couponCode := none }

/-- `cartSchema.methods.applyCoupon` (`Cart.ts` lines 251-260): reject a
discount exceeding the current subtotal, otherwise record the coupon and
save. -/
def Cart.applyCoupon (c : Cart) (couponCode : String) (discountAmount : Money) :
    Cart :=
  if discountAmount > c.subtotal then c
  else
    cartSave { c with couponCode := some couponCode, couponDiscount := discountAmount }

/-- `cartSchema.methods.removeCoupon` (`Cart.ts` lines 263-268). -/
def Cart.removeCoupon (c : Cart) : Cart :=
  cartSave { c with couponCode := none, couponDiscount := 0 }

/-- `cartSchema.methods.calculateTax` (`Cart.ts` lines 271-278): reject a
rate outside [0, 100], otherwise set `tax` from the current subtotal and
save. -/
def Cart.calculateTax (c : Cart) (taxRate : Money) : Cart :=
  if taxRate < 0 ∨ taxRate > 100 then c
  else cartSave { c with tax := c.subtotal * taxRate / 100 }

/-- `cartSchema.methods.calculateShipping` (`Cart.ts` lines 281-301): base
cost from the shipping-method table (default 100) plus 10 per unit of
quantity, then save. -/
def Cart.calculateShipping (c : Cart) (shippingMethod : String) : Cart :=
  let baseCost : Money :=
    if shippingMethod = "standard" then 100
    else if shippingMethod = "express" then 200
    else if shippingMethod = "overnight" then 500
    else if shippingMethod = "same_day" then 800
    else 100
  let totalWeight : Int := (c.items.map (·.quantity)).sum
  cartSave { c with shipping := baseCost + (totalWeight : Money) * 10 }

/-- `cartSchema.methods.validateItems` (`Cart.ts` lines 327-345): per
line, collect a violation for non-positive quantity, negative price, and
line-total mismatch.  The method consults nothing but the cart itself. -/
def Cart.validateItems (c : Cart) : List String :=
  c.items.foldr
    (fun it acc =>
      (if it.quantity ≤ 0 then
        ["Invalid quantity for item " ++ toString it.productId] else []) ++
      (if it.price < 0 then
        ["Invalid price for item " ++ toString it.productId] else []) ++
      (if it.totalPrice ≠ it.price * (it.quantity : Money) then
        ["Price mismatch for item " ++ toString it.productId] else []) ++
      acc)
    []

/-- The cart operations named by the spec's cart invariant. -/
inductive CartOp where
  | addItem (freshId productId : Nat) (variantId : Option Nat)
      (quantity : Int) (price : Money) (now : Nat)
  | updateItemQuantity (itemId : Nat) (quantity : Int) (now : Nat)
  | removeItem (itemId : Nat)
  | clearCart
  | applyCoupon (couponCode : String) (discountAmount : Money)
  | removeCoupon
  | calculateTax (taxRate : Money)
  | calculateShipping (shippingMethod : String)

/-- Dispatch a cart operation; a rejected operation (thrown exception)
leaves the cart unchanged. -/
def applyCartOp (c : Cart) : CartOp → Cart
  | .addItem freshId productId variantId quantity price now =>
      c.addItem freshId productId variantId quantity price now
  | .updateItemQuantity itemId quantity now => c.updateItemQuantity itemId quantity now
  | .removeItem itemId => c.removeItem itemId
  | .clearCart => c.clearCart
  | .applyCoupon code amt => c.applyCoupon code amt
  | .removeCoupon => c.removeCoupon
  | .calculateTax rate => c.calculateTax rate
  | .calculateShipping m => c.calculateShipping m

/-- The spec's cart invariant (section 8): the stored total is the floored
sum, and the stored subtotal is the sum of the line totals. -/
def CartInv (c : Cart) : Prop :=
  c.total = max 0 (c.subtotal + c.tax + c.shipping - c.discount - c.couponDiscount) ∧
  c.subtotal = cartItemsSubtotal c.items

/-- A line is consistent when a truthy price/quantity pair implies the
stored line total is price × quantity (the per-line save hook then leaves
it unchanged). -/
def ItemConsistent (it : CartItem) : Prop :=
  it.price ≠ 0 → it.quantity ≠ 0 → it.totalPrice = it.price * it.quantity

/-- All lines of a list are consistent. -/
def ItemsConsistent (l : List CartItem) : Prop :=
  ∀ it ∈ l, ItemConsistent it

/-- Embedded inventory bookkeeping (`inventoryInfoSchema` in
`Product.ts`). -/
structure InventoryInfo where
  quantity : Int
  reservedQuantity : Int
  availableQuantity : Int
  lowStockThreshold : Int
  isLowStock : Bool
  isOutOfStock : Bool
  deriving Repr, DecidableEq

/-- A product variant with its embedded inventory
(`productVariantSchema`). -/
structure ProductVariant where
  id : Nat
  isActive : Bool
  inventory : InventoryInfo
  deriving Repr, DecidableEq

/-- A product document with its top-level inventory and variants. -/
structure Product where
  id : Nat
  isActive : Bool
  inventory : InventoryInfo
  variants : List ProductVariant
  deriving Repr, DecidableEq

/-- Pre-save hook of `productSchema` (`Product.ts` lines 800-807): derive
the top-level available quantity and the stock flags. -/
def productSaveHook (p : Product) : Product :=
  let available := p.inventory.quantity - p.inventory.reservedQuantity
  { p with
    inventory :=
      { p.inventory with
        availableQuantity := available
        isOutOfStock := available ≤ 0
        isLowStock := available ≤ p.inventory.lowStockThreshold } }

/-- The per-line mapping of `createOrder` in `adminController.ts`
(lines 685-691): it copies `productId`, `variantId`, `quantity` and
`price`, and reads `item.total` — a field cart lines do not have, so the
value is undefined; `name`, `sku`, `image` and `totalPrice` are not
supplied at all. -/
def toOrderItemData (it : CartItem) : OrderItemData :=
  { productId := it.productId
    variantId := it.variantId
    name := none
    sku := none
    quantity := it.quantity
    price := it.price
    totalPrice := none
    image := none }

/-- One step of the inventory-decrement loop of `createOrder`
(`adminController.ts` lines 709-719): look the product up by id; when the
line carries a `variantId` and that variant exists, subtract the line
quantity from the variant inventory and save the product (running the
product pre-save hook); otherwise touch nothing. -/
def decrementStep (store : List Product) (it : OrderItemData) : List Product :=
  match it.variantId with
  | none => store
  | some vid =>
      updateFirst (fun p => p.id = it.productId)
        (fun p =>
          if (p.variants.find? (fun v => v.id = vid)).isSome then
            productSaveHook
              { p with
                variants := updateFirst (fun v => v.id = vid)
                  (fun v =>
                    { v with
                      inventory :=
                        { v.inventory with
                          quantity := v.inventory.quantity - it.quantity } })
                  p.variants }
          else p)
        store

/-- The full inventory-decrement loop of `createOrder`. -/
def decrementInventoryLoop (store : List Product) (items : List OrderItemData) :
    List Product :=
  items.foldl decrementStep store

/-- One step of the inventory-restore loop of `cancelOrder`
(`adminController.ts` lines 850-860); identical to the decrement step
except the quantity is added back. -/
def restoreStep (store : List Product) (it : OrderItemData) : List Product :=
  match it.variantId with
  | none => store
  | some vid =>
      updateFirst (fun p => p.id = it.productId)
        (fun p =>
          if (p.variants.find? (fun v => v.id = vid)).isSome then
            productSaveHook
              { p with
                variants := updateFirst (fun v => v.id = vid)
                  (fun v =>
                    { v with
                      inventory :=
                        { v.inventory with
                          quantity := v.inventory.quantity + it.quantity } })
                  p.variants }
          else p)
        store

/-- The full inventory-restore loop of `cancelOrder`. -/
def restoreInventoryLoop (store : List Product) (items : List OrderItemData) :
    List Product :=
  items.foldl restoreStep store

/-- A sample order document matching the spec's Scenario C: payment
completed, total 200, still pending fulfilment, no refund yet. -/
def baseOrder : OrderDoc where
  orderNumber := "WM00000001001"
  items := []
  subtotal := 200
  tax := 0
  shipping := 0
  discount := 0
  total := 200
  paymentStatus := "completed"
  orderStatus := "pending"
  shippingMethod := "standard"
  trackingNumber := none
  estimatedDelivery := none
  actualDelivery := none
  adminNotes := none
  refundReason := none
  refundAmount := none
  refundDate := none
  updatedAt := 0
  paymentIntentId := some "pi_1"
  transactionId := none
  paidAt := none
  paymentFailureReason := none
  refunds := []
  statusProp := none
  cancelledAt := none
  cancellationReason := none
  cancelledBy := none

/-- An order whose payment was already refunded (terminal payment
state). -/
def refundedOrder : OrderDoc :=
  { baseOrder with paymentStatus := "refunded" }

/-- An order awaiting payment, target of the payment-succeeded webhook. -/
def webhookOrder : OrderDoc :=
  { baseOrder with paymentStatus := "pending" }

/-- The two transition tables agree on every status string. -/
theorem valid_eq_spec (s : String) : validTransitions s = specOrderTransitions s := by
  unfold validTransitions specOrderTransitions
  split_ifs <;> rfl

/-- C2: for every Order and requested newStatus, updateStatus succeeds
exactly when newStatus is in the allowed set of the spec's transition
table (pending→confirmed/cancelled, confirmed→processing/cancelled,
processing→shipped/cancelled, shipped→delivered/returned,
delivered→returned, cancelled and returned terminal, everything else
rejected); in particular a pending order rejects updateStatus("shipped")
with an error naming the illegal transition. -/
theorem C2_updateStatus_transition_table (o : OrderDoc) (s : String)
    (notes : Option String) (now : Nat) :
    (exceptOk (o.updateStatus s notes now) = true ↔ s ∈ specOrderTransitions o.orderStatus) ∧
    (o.orderStatus = "pending" →
      o.updateStatus "shipped" notes now =
        .error "Invalid status transition from pending to shipped") := by
  constructor
  · rw [← valid_eq_spec]
    unfold OrderDoc.updateStatus
    by_cases h : s ∈ validTransitions o.orderStatus
    · simp [h, exceptOk]
    · simp [h, exceptOk]
  · intro hp
    unfold OrderDoc.updateStatus
    rw [hp]
    have h : ¬ ("shipped" ∈ validTransitions "pending") := by decide
    simp [h]

/-- Witness for C2 at a concrete pending order. -/
theorem C2_updateStatus_transition_table_witness :
    baseOrder.orderStatus = "pending" ∧
    baseOrder.updateStatus "shipped" none 0 =
      .error "Invalid status transition from pending to shipped" :=
  ⟨by decide, (C2_updateStatus_transition_table baseOrder "shipped" none 0).2 (by decide)⟩

/-- C3 counterexample: on Scenario C's order (paymentStatus completed,
total 200) a refund of 100 succeeds, records the refund and sets
orderStatus to returned, but paymentStatus stays "completed" — the claim
says a successful processRefund sets paymentStatus to refunded. -/
theorem C3_processRefund_counterexample :
    (applyProcessRefund baseOrder 100 "damaged" 5).refundAmount = some 100 ∧
    (applyProcessRefund baseOrder 100 "damaged" 5).orderStatus = "returned" ∧
    (applyProcessRefund baseOrder 100 "damaged" 5).paymentStatus = "completed" ∧
    (applyProcessRefund baseOrder 100 "damaged" 5).paymentStatus ≠ "refunded" := by
  decide

/-- C3 amended: processRefund fails when the amount exceeds the total or
when a truthy refundAmount is already recorded, leaving the order
unchanged; on success it records refundAmount, refundReason and
refundDate and sets orderStatus to returned — paymentStatus is left
unchanged. -/
theorem C3_processRefund_amended (o : OrderDoc) (amount : Money)
    (reason : String) (now : Nat) :
    (amount > o.total →
      o.processRefund amount reason now = .error "Refund amount cannot exceed order total" ∧
      applyProcessRefund o amount reason now = o) ∧
    (amount ≤ o.total → numTruthy o.refundAmount = true →
      o.processRefund amount reason now = .error "Refund already processed for this order" ∧
      applyProcessRefund o amount reason now = o) ∧
    (amount ≤ o.total → numTruthy o.refundAmount = false →
      (applyProcessRefund o amount reason now).refundAmount = some amount ∧
      (applyProcessRefund o amount reason now).refundReason = some reason ∧
      (applyProcessRefund o amount reason now).refundDate = some now ∧
      (applyProcessRefund o amount reason now).orderStatus = "returned" ∧
      (applyProcessRefund o amount reason now).paymentStatus = o.paymentStatus) := by
  refine ⟨fun hgt => ?_, fun hle htr => ?_, fun hle htr => ?_⟩
  · unfold applyProcessRefund OrderDoc.processRefund
    simp [hgt]
  · unfold applyProcessRefund OrderDoc.processRefund
    simp [not_lt.mpr hle, htr]
  · unfold applyProcessRefund OrderDoc.processRefund
    simp [not_lt.mpr hle, htr, orderSaveExisting]

/-- Witness for C3's amended statement at Scenario C's order. -/
theorem C3_processRefund_amended_witness :
    (100 : Money) ≤ baseOrder.total ∧
    numTruthy baseOrder.refundAmount = false ∧
    (applyProcessRefund baseOrder 100 "damaged" 5).refundReason = some "damaged" :=
  ⟨by decide, by decide,
    (((C3_processRefund_amended baseOrder 100 "damaged" 5).2.2 (by decide) (by decide)).2.1)⟩

/-- C4: the payment-succeeded webhook handler is not idempotent as
claimed: each delivery assigns paymentStatus "paid" (a value outside the
schema's paymentStatus enum, not "completed") and overwrites paidAt with
the current delivery time, so a replay at a later time changes the
document. -/
theorem C4_webhook_replay_divergence :
    (handlePaymentSucceeded webhookOrder "ch_1" 1).paymentStatus = "paid" ∧
    "paid" ∉ paymentStatusEnum ∧
    (handlePaymentSucceeded webhookOrder "ch_1" 1).paidAt = some 1 ∧
    (handlePaymentSucceeded (handlePaymentSucceeded webhookOrder "ch_1" 1) "ch_1" 2).paidAt
      = some 2 ∧
    handlePaymentSucceeded (handlePaymentSucceeded webhookOrder "ch_1" 1) "ch_1" 2
      ≠ handlePaymentSucceeded webhookOrder "ch_1" 1 := by
  decide

/-- C9 counterexample: the webhook handler mutates paymentStatus by
direct assignment: on an order already refunded (a terminal payment
state, whose allowed-transition set is empty, so updatePaymentStatus
rejects every target) handlePaymentSucceeded still rewrites paymentStatus
to "paid". -/
theorem C9_direct_assignment_counterexample :
    refundedOrder.paymentStatus = "refunded" ∧
    (handlePaymentSucceeded refundedOrder "ch_9" 3).paymentStatus = "paid" ∧
    validPaymentTransitions "refunded" = [] ∧
    exceptOk (refundedOrder.updatePaymentStatus "paid") = false := by
  decide

/-- C9 amended: order statuses are not mutated only through the
transition methods: every payment-coordinator operation assigns
paymentStatus directly, bypassing the transition table — confirmPayment
and handlePaymentSucceeded write "paid", handlePaymentFailed writes
"failed", handleChargeRefunded writes "refunded", whatever the current
state — and cancelOrder assigns an undeclared status property, leaving
orderStatus itself unchanged. -/
theorem C9_status_mutation_amended (o : OrderDoc) (ch : String) (t : Nat)
    (r : Option String) (amt : Money) (rid : Option String) (uid : Nat)
    (reason : Option String) :
    (handlePaymentSucceeded o ch t).paymentStatus = "paid" ∧
    (confirmPaymentSuccess o ch t).paymentStatus = "paid" ∧
    (handlePaymentFailed o r).paymentStatus = "failed" ∧
    (handleChargeRefunded o amt rid t).paymentStatus = "refunded" ∧
    (applyCancelOrder o uid reason t).orderStatus = o.orderStatus := by
  refine ⟨rfl, rfl, rfl, rfl, ?_⟩
  unfold applyCancelOrder
  split_ifs <;> rfl

/-- C6: every updateStatus call either succeeds and sets orderStatus to
exactly the requested value, or fails and leaves the whole document
unchanged. -/
theorem C6_updateStatus_all_or_nothing (o : OrderDoc) (s : String)
    (notes : Option String) (now : Nat) :
    (exceptOk (o.updateStatus s notes now) = true →
      (applyUpdateStatus o s notes now).orderStatus = s) ∧
    (exceptOk (o.updateStatus s notes now) = false →
      applyUpdateStatus o s notes now = o) := by
  unfold applyUpdateStatus OrderDoc.updateStatus exceptOk
  by_cases h : s ∈ validTransitions o.orderStatus
  · simp only [if_pos h]
    refine ⟨fun _ => ?_, fun hf => by simp at hf⟩
    simp [orderSaveExisting]
    split_ifs <;> trivial
  · simp only [if_neg h]
    exact ⟨fun ht => by simp at ht, fun _ => trivial⟩

/-- Witness for C6 at a concrete pending order and a legal target. -/
theorem C6_updateStatus_all_or_nothing_witness :
    exceptOk (baseOrder.updateStatus "confirmed" none 0) = true ∧
    (applyUpdateStatus baseOrder "confirmed" none 0).orderStatus = "confirmed" :=
  ⟨by decide, (C6_updateStatus_all_or_nothing baseOrder "confirmed" none 0).1 (by decide)⟩

/-- An inactive product whose only variant has zero stock. -/
def inactiveProduct : Product where
  id := 7
  isActive := false
  inventory :=
    { quantity := 0
      reservedQuantity := 0
      availableQuantity := 0
      lowStockThreshold := 10
      isLowStock := true
      isOutOfStock := true }
  variants :=
    [{ id := 1
       isActive := true
       inventory :=
         { quantity := 0
           reservedQuantity := 0
           availableQuantity := 0
           lowStockThreshold := 10
           isLowStock := true
           isOutOfStock := true } }]

/-- A cart holding five units of `inactiveProduct`'s variant. -/
def checkoutCart : Cart where
  items :=
    [{ id := 1
       productId := 7
       variantId := some 1
       quantity := 5
       price := 50
       totalPrice := 250
       addedAt := 0 }]
  subtotal := 250
  tax := 0
  shipping := 0
  discount := 0
  total := 250
  couponCode := none
  couponDiscount := 0

/-- C1: checkout validation does not do what the claim says: on a cart
requesting five units of an inactive, zero-stock product,
`validateItems` — the only validation `createOrder` runs — reports no
violations at all, because it checks only per-line quantity positivity,
price sign and line-total consistency and never consults the product or
its stock. -/
theorem C1_checkout_validation_gap :
    checkoutCart.validateItems = [] ∧
    inactiveProduct.isActive = false ∧
    (inactiveProduct.variants.map (fun v => v.inventory.availableQuantity)) = [0] ∧
    (checkoutCart.items.map (fun it => it.quantity)) = [5] ∧
    (checkoutCart.items.map (fun it => it.productId)) = [inactiveProduct.id] := by
  refine ⟨?_, by decide, by decide, by decide, by decide⟩
  norm_num [Cart.validateItems, checkoutCart]

/-- A representative cart line (Scenario A: quantity 2 at price 50). -/
def sampleCartLine : CartItem where
  id := 1
  productId := 3
  variantId := none
  quantity := 2
  price := 50
  totalPrice := 100
  addedAt := 0

/-- C5: the order snapshot built by `createOrder` does not copy name,
sku, image or the line total: the per-line mapping produces a record with
`name`, `sku`, `image` and `totalPrice` all absent (the controller reads
`item.total`, a field cart lines do not have), so the result violates the
order-item schema's own required-field constraints; only productId,
variantId, quantity and price survive. -/
theorem C5_snapshot_missing_fields :
    (toOrderItemData sampleCartLine).name = none ∧
    (toOrderItemData sampleCartLine).sku = none ∧
    (toOrderItemData sampleCartLine).image = none ∧
    (toOrderItemData sampleCartLine).totalPrice = none ∧
    orderItemSchemaOk (toOrderItemData sampleCartLine) = false ∧
    (toOrderItemData sampleCartLine).quantity = sampleCartLine.quantity ∧
    (toOrderItemData sampleCartLine).price = sampleCartLine.price := by
  decide

/-- A fold whose every step is the identity on the listed elements leaves
the accumulator unchanged. -/
theorem foldl_id_of_steps {α β : Type} (f : β → α → β) (P : α → Prop)
    (hf : ∀ b a, P a → f b a = b) :
    ∀ (l : List α) (b : β), (∀ a ∈ l, P a) → l.foldl f b = b := by
  intro l
  induction l with
  | nil => intro b _; rfl
  | cons x xs ih =>
      intro b h
      rw [List.foldl_cons, hf b x (h x (List.mem_cons_self x xs))]
      exact ih b (fun a ha => h a (List.mem_cons_of_mem x ha))

/-- C10: in both the checkout decrement loop and the cancellation
restore loop, a line without a variant reference never touches the store:
a single variant-free step is the identity, and a whole loop over
variant-free lines leaves every product unchanged. -/
theorem C10_inventory_frame (store : List Product) (items : List OrderItemData)
    (it0 : OrderItemData) (h0 : it0.variantId = none)
    (h : ∀ it ∈ items, it.variantId = none) :
    decrementStep store it0 = store ∧
    restoreStep store it0 = store ∧
    decrementInventoryLoop store items = store ∧
    restoreInventoryLoop store items = store := by
  have hdec : ∀ (s : List Product) (it : OrderItemData), it.variantId = none →
      decrementStep s it = s := by
    intro s it hit
    unfold decrementStep
    rw [hit]
  have hres : ∀ (s : List Product) (it : OrderItemData), it.variantId = none →
      restoreStep s it = s := by
    intro s it hit
    unfold restoreStep
    rw [hit]
  exact ⟨hdec store it0 h0, hres store it0 h0,
    foldl_id_of_steps decrementStep (fun it => it.variantId = none) hdec items store h,
    foldl_id_of_steps restoreStep (fun it => it.variantId = none) hres items store h⟩

/-- An order line without a variant reference. -/
def noVariantItem : OrderItemData where
  productId := 7
  variantId := none
  name := some "Mug"
  sku := some "MUG-1"
  quantity := 2
  price := 50
  totalPrice := some 100
  image := none

/-- Witness for C10 on a concrete store and a concrete variant-free
line. -/
theorem C10_inventory_frame_witness :
    decrementInventoryLoop [inactiveProduct] [noVariantItem] = [inactiveProduct] ∧
    restoreInventoryLoop [inactiveProduct] [noVariantItem] = [inactiveProduct] :=
  ⟨(C10_inventory_frame [inactiveProduct] [noVariantItem] noVariantItem (by decide)
      (by decide)).2.2.1,
   (C10_inventory_frame [inactiveProduct] [noVariantItem] noVariantItem (by decide)
      (by decide)).2.2.2⟩

/-- A consistent line is left unchanged by the per-line save hook. -/
theorem itemConsistent_recalc_eq {it : CartItem} (h : ItemConsistent it) :
    cartItemRecalc it = it := by
  unfold cartItemRecalc
  split_ifs with hc
  · have htp := h hc.1 hc.2
    cases it
    simp_all
  · rfl

/-- The per-line save hook is the identity on a consistent item list. -/
theorem itemsConsistent_map_recalc {l : List CartItem} (h : ItemsConsistent l) :
    l.map cartItemRecalc = l := by
  induction l with
  | nil => rfl
  | cons x xs ih =>
      rw [List.map_cons, itemConsistent_recalc_eq (h x (List.mem_cons_self x xs)),
        ih (fun it hit => h it (List.mem_cons_of_mem x hit))]

/-- The negative-total guard of the save hook is a floor at zero. -/
theorem max_ite_form (x : Money) : (if x < 0 then 0 else x) = max 0 x := by
  rcases le_or_lt 0 x with h | h
  · rw [if_neg (not_lt.mpr h), max_eq_right h]
  · rw [if_pos h, max_eq_left h.le]

/-- Field-by-field description of a saved cart. -/
theorem cartSave_fields (c : Cart) :
    (cartSave c).items = c.items.map cartItemRecalc ∧
    (cartSave c).subtotal = cartItemsSubtotal c.items ∧
    (cartSave c).tax = c.tax ∧
    (cartSave c).shipping = c.shipping ∧
    (cartSave c).discount = c.discount ∧
    (cartSave c).couponDiscount = c.couponDiscount ∧
    (cartSave c).total =
      max 0 (cartItemsSubtotal c.items + c.tax + c.shipping - c.discount - c.couponDiscount) := by
  unfold cartSave cartRecalcTotals
  exact ⟨rfl, rfl, rfl, rfl, rfl, rfl, max_ite_form _⟩

/-- Saving a cart whose items are consistent establishes the spec's cart
invariant. -/
theorem cartSave_inv {c : Cart} (h : ItemsConsistent c.items) :
    CartInv (cartSave c) := by
  obtain ⟨hitems, hsub, htax, hship, hdisc, hcoup, htot⟩ := cartSave_fields c
  constructor
  · rw [htot, hsub, htax, hship, hdisc, hcoup]
  · rw [hsub, hitems, itemsConsistent_map_recalc h]

/-- Updating the first matching element preserves per-element consistency
when the update's output is always consistent. -/
theorem updateFirst_consistent {p : CartItem → Bool} {f : CartItem → CartItem}
    {l : List CartItem} (hl : ItemsConsistent l)
    (hf : ∀ it, ItemConsistent (f it)) :
    ItemsConsistent (updateFirst p f l) := by
  induction l with
  | nil => exact hl
  | cons x xs ih =>
      unfold updateFirst
      split_ifs with hp
      · intro it hit
        rcases List.mem_cons.mp hit with h1 | h2
        · exact h1 ▸ hf x
        · exact hl it (List.mem_cons_of_mem x h2)
      · intro it hit
        rcases List.mem_cons.mp hit with h1 | h2
        · exact h1 ▸ hl x (List.mem_cons_self x xs)
        · exact ih (fun a ha => hl a (List.mem_cons_of_mem x ha)) it h2

/-- Consistency is preserved by appending consistent lists. -/
theorem itemsConsistent_append {l1 l2 : List CartItem}
    (h1 : ItemsConsistent l1) (h2 : ItemsConsistent l2) :
    ItemsConsistent (l1 ++ l2) :=
  fun it hit => (List.mem_append.mp hit).elim (h1 it) (h2 it)

/-- C7: after any of the eight cart operations, applied to a cart
satisfying the invariant (total is the floored sum and subtotal is the sum
of the line totals) with consistent line totals, the invariant still
holds: total = max(0, subtotal + tax + shipping − discount −
couponDiscount) and subtotal = Σ line totals. -/
theorem C7_cart_total_invariant (c : Cart) (op : CartOp)
    (hinv : CartInv c) (hcons : ItemsConsistent c.items) :
    CartInv (applyCartOp c op) := by
  cases op with
  | addItem fid pid vid q pr now =>
      simp only [applyCartOp, Cart.addItem]
      split_ifs with hfind
      · exact cartSave_inv (updateFirst_consistent hcons (fun it _ _ => rfl))
      · exact cartSave_inv
          (itemsConsistent_append hcons (fun it hit => by
            rw [List.mem_singleton.mp hit]
            intro _ _
            rfl))
  | updateItemQuantity itemId q now =>
      simp only [applyCartOp, Cart.updateItemQuantity]
      split_ifs with h1 h2 h3
      · exact hinv
      · exact hinv
      · exact cartSave_inv (updateFirst_consistent hcons (fun it _ _ => rfl))
      · exact hinv
  | removeItem itemId =>
      simp only [applyCartOp, Cart.removeItem]
      exact cartSave_inv (fun it hit => hcons it (List.mem_of_mem_filter hit))
  | clearCart =>
      simp only [applyCartOp, Cart.clearCart]
      exact cartSave_inv (fun it hit => absurd hit (List.not_mem_nil it))
  | applyCoupon code amt =>
      simp only [applyCartOp, Cart.applyCoupon]
      split_ifs with h1
      · exact hinv
      · exact cartSave_inv hcons
  | removeCoupon =>
      simp only [applyCartOp, Cart.removeCoupon]
      exact cartSave_inv hcons
  | calculateTax rate =>
      simp only [applyCartOp, Cart.calculateTax]
      split_ifs with h1
      · exact hinv
      · exact cartSave_inv hcons
  | calculateShipping m =>
      simp only [applyCartOp, Cart.calculateShipping]
      exact cartSave_inv hcons

/-- Witness for C7: adding two units at price 50 to a fresh cart keeps
the invariant. -/
theorem C7_cart_total_invariant_witness :
    CartInv (applyCartOp newCart (CartOp.addItem 1 3 none 2 50 0)) :=
  C7_cart_total_invariant newCart (CartOp.addItem 1 3 none 2 50 0)
    (by constructor
        · norm_num [newCart]
        · norm_num [newCart, cartItemsSubtotal])
    (by intro it hit
        simp [newCart] at hit)

/-- A cart with one line and previously computed tax and shipping. -/
def taxedCart : Cart where
  items :=
    [{ id := 1
       productId := 1
       variantId := none
       quantity := 1
       price := 50
       totalPrice := 50
       addedAt := 0 }]
  subtotal := 50
  tax := 10
  shipping := 100
  discount := 0
  total := 160
  couponCode := none
  couponDiscount := 0

/-- C8 counterexample: removing the last line empties the cart, but tax
and shipping keep their previous values and total becomes 110, not 0 —
the claim says an item-less cart has subtotal, tax, shipping, discount
and total all zero. -/
theorem C8_empty_cart_counterexample :
    (taxedCart.removeItem 1).items = [] ∧
    (taxedCart.removeItem 1).subtotal = 0 ∧
    (taxedCart.removeItem 1).tax = 10 ∧
    (taxedCart.removeItem 1).shipping = 100 ∧
    (taxedCart.removeItem 1).total = 110 := by
  norm_num [Cart.removeItem, cartSave, cartRecalcTotals, cartItemsSubtotal,
    cartItemRecalc, taxedCart]

/-- Saving a cart with no items zeroes the subtotal, keeps tax, shipping
and discount, and floors the remaining total at zero. -/
theorem cartSave_empty {d : Cart} (h : d.items = []) :
    (cartSave d).subtotal = 0 ∧ (cartSave d).tax = d.tax ∧
    (cartSave d).shipping = d.shipping ∧ (cartSave d).discount = d.discount ∧
    (cartSave d).total = max 0 (d.tax + d.shipping - d.discount - d.couponDiscount) := by
  obtain ⟨hitems, hsub, htax, hship, hdisc, hcoup, htot⟩ := cartSave_fields d
  rw [h] at hsub htot
  refine ⟨by rw [hsub]; rfl, htax, hship, hdisc, ?_⟩
  rw [htot]
  show max 0 ((0 : Money) + d.tax + d.shipping - d.discount - d.couponDiscount) = _
  rw [zero_add]

/-- C8 amended: a freshly created cart and a cleared cart have subtotal,
tax, shipping, discount and total all zero; removing the last item only
zeroes the subtotal — tax, shipping and discount keep their previous
values and total becomes max(0, tax + shipping − discount −
couponDiscount). -/
theorem C8_empty_cart_amended (c : Cart) (itemId : Nat) :
    (newCart.subtotal = 0 ∧ newCart.tax = 0 ∧ newCart.shipping = 0 ∧
      newCart.discount = 0 ∧ newCart.total = 0) ∧
    ((c.clearCart).subtotal = 0 ∧ (c.clearCart).tax = 0 ∧
      (c.clearCart).shipping = 0 ∧ (c.clearCart).discount = 0 ∧
      (c.clearCart).total = 0) ∧
    ((c.removeItem itemId).items = [] →
      (c.removeItem itemId).subtotal = 0 ∧
      (c.removeItem itemId).tax = c.tax ∧
      (c.removeItem itemId).shipping = c.shipping ∧
      (c.removeItem itemId).discount = c.discount ∧
      (c.removeItem itemId).total =
        max 0 (c.tax + c.shipping - c.discount - c.couponDiscount)) := by
  refine ⟨by norm_num [newCart],
    by norm_num [Cart.clearCart, cartSave, cartRecalcTotals, cartItemsSubtotal],
    fun hemp => ?_⟩
  unfold Cart.removeItem at hemp ⊢
  have hmid : ({ c with items := c.items.filter (fun it => it.id ≠ itemId) } : Cart).items
      = [] := by
    obtain ⟨hitems, _, _, _, _, _, _⟩ :=
      cartSave_fields { c with items := c.items.filter (fun it => it.id ≠ itemId) }
    rw [hitems] at hemp
    exact List.map_eq_nil_iff.mp hemp
  obtain ⟨h1, h2, h3, h4, h5⟩ := cartSave_empty hmid
  exact ⟨h1, h2, h3, h4, h5⟩

/-- Witness for C8's amended statement at the concrete taxed cart. -/
theorem C8_empty_cart_amended_witness :
    (taxedCart.removeItem 1).items = [] ∧
    (taxedCart.removeItem 1).tax = taxedCart.tax ∧
    (taxedCart.removeItem 1).total =
      max 0 (taxedCart.tax + taxedCart.shipping - taxedCart.discount
        - taxedCart.couponDiscount) :=
  have hemp : (taxedCart.removeItem 1).items = [] := by
    norm_num [Cart.removeItem, cartSave, cartRecalcTotals, cartItemRecalc, taxedCart]
  ⟨hemp, ((C8_empty_cart_amended taxedCart 1).2.2 hemp).2.1,
    ((C8_empty_cart_amended taxedCart 1).2.2 hemp).2.2.2.2⟩
